import Mathlib

/-!
Shallow embedding of the rt-monitor-simulator core: the debounced alarm
state machine (`src/src/app/app.py`), the simulation driver (`src/src/main.py`),
the metrics aggregator (`src/src/utils/metrics.py`), and the near-duplicate
state-machine implementation living in `src/tests/test_state_machine_invariants.py`.

Python mutation is modelled by explicit state passing; the fatal `assert` in
`App._transition` is modelled by returning `none` (an aborted call returns no
events and no post-state, exactly as the raised `AssertionError` propagates).
Python `int` is modelled by `Int` (arbitrary precision in both).
-/

namespace RTMon

/-- `AlarmState` enum from `src/src/app/app.py`. -/
inductive AlarmState where
  | NOMINAL
  | PENDING_RAISE
  | ALARMED
  | PENDING_CLEAR
deriving DecidableEq, Repr

/-- The string value of each `AlarmState` member (used in log messages). -/
def AlarmState.str : AlarmState → String
  | .NOMINAL => "NOMINAL"
  | .PENDING_RAISE => "PENDING_RAISE"
  | .ALARMED => "ALARMED"
  | .PENDING_CLEAR => "PENDING_CLEAR"

/-- `AppConfig` dataclass from `src/src/app/app.py`. -/
structure AppConfig where
  tick_ms : Int := 10
  total_ticks : Nat := 50
  sensor_alarm_threshold : Int := 1000
  alarm_raise_after : Int := 2
  alarm_clear_after : Int := 2
deriving DecidableEq, Repr

/-- `Fault` dataclass from `src/src/sim/scenario.py` (`tick` is validated `>= 0`). -/
structure Fault where
  tick : Nat
  kind : String
  value : Int
deriving DecidableEq, Repr

/-- `LogEvent` dataclass from `src/src/utils/logging.py`. -/
structure LogEvent where
  t_ms : Int
  level : String
  code : String
  msg : String
deriving DecidableEq, Repr

/-- The mutable fields of an `App` instance from `src/src/app/app.py`
(`_tick_count`, `_state`, `_raise_streak`, `_clear_streak`). -/
structure AppState where
  tick_count : Nat
  state : AlarmState
  raise_streak : Int
  clear_streak : Int
deriving DecidableEq, Repr

/-- State of a freshly constructed `App` (its `__init__`). -/
def initApp : AppState :=
  { tick_count := 0, state := .NOMINAL, raise_streak := 0, clear_streak := 0 }

/-- `App._LEGAL_TRANSITIONS` from `src/src/app/app.py`. -/
def legalTransitions : AlarmState → List AlarmState
  | .NOMINAL => [.NOMINAL, .PENDING_RAISE, .ALARMED]
  | .PENDING_RAISE => [.PENDING_RAISE, .NOMINAL, .ALARMED]
  | .ALARMED => [.ALARMED, .PENDING_CLEAR]
  | .PENDING_CLEAR => [.PENDING_CLEAR, .NOMINAL, .ALARMED, .PENDING_RAISE]

/-- `App._transition` from `src/src/app/app.py`: no-op when the target equals the
current state, otherwise checks the legal-transition table (the Python `assert`;
`none` models the `AssertionError` aborting the call) and emits `STATE_TRANSITION`. -/
def transition (s : AppState) (now_ms : Int) (to_state : AlarmState) (reason : String) :
    Option (AppState × List LogEvent) :=
  if to_state = s.state then
    some (s, [])
  else if to_state ∈ legalTransitions s.state then
    some ({ s with state := to_state },
      [{ t_ms := now_ms, level := "INFO", code := "STATE_TRANSITION",
         msg := "from=" ++ s.state.str ++ " to=" ++ to_state.str ++ " reason=" ++ reason }])
  else
    none

/-- The sensor-resolution loop at the top of `App.tick` (`src/src/app/app.py`
lines 115-122): baseline 500; a `dropout` fault sets the reading to `None`, a
`sensor_spike` fault sets it to the fault's value, later faults overwriting
earlier ones; other kinds are ignored. -/
def resolveSensor (faults : List Fault) : Option Int :=
  faults.foldl
    (fun acc f =>
      if f.kind = "dropout" then none
      else if f.kind = "sensor_spike" then some f.value
      else acc)
    (some 500)

/-- `App.tick` from `src/src/app/app.py`, as a pure function from the pre-state
to the post-state and emitted events; `none` models an `AssertionError` escaping
from `_transition`. -/
def tick (cfg : AppConfig) (s : AppState) (now_ms : Int) (faults : List Fault) :
    Option (AppState × List LogEvent) :=
  let tickEv : LogEvent :=
    { t_ms := now_ms, level := "INFO", code := "APP_TICK",
      msg := "tick=" ++ toString s.tick_count }
  match resolveSensor faults with
  | none =>
    -- 1) Dropout: immediate alarm condition
    let s := { s with raise_streak := 0, clear_streak := 0 }
    if s.state = .PENDING_CLEAR then
      match transition s now_ms .ALARMED "dropout_returned" with
      | none => none
      | some (s, evs) =>
        some ({ s with tick_count := s.tick_count + 1 },
          tickEv :: evs ++
            [{ t_ms := now_ms, level := "ERROR", code := "ALARM_RAISED",
               msg := "reason=sensor_dropout" }])
    else if s.state = .ALARMED then
      some ({ s with tick_count := s.tick_count + 1 }, [tickEv])
    else
      match transition s now_ms .ALARMED "dropout_immediate" with
      | none => none
      | some (s, evs) =>
        some ({ s with tick_count := s.tick_count + 1 },
          tickEv :: evs ++
            [{ t_ms := now_ms, level := "ERROR", code := "ALARM_RAISED",
               msg := "reason=sensor_dropout" }])
  | some sensor_value =>
    -- 2) Sensor present: decide spike vs nominal
    if cfg.sensor_alarm_threshold ≤ sensor_value then
      let s := { s with clear_streak := 0 }
      if s.state = .PENDING_CLEAR then
        let s := { s with raise_streak := 1 }
        match transition s now_ms .PENDING_RAISE "raise_pending" with
        | none => none
        | some (s, evs) =>
          some ({ s with tick_count := s.tick_count + 1 },
            tickEv :: evs ++
              [{ t_ms := now_ms, level := "WARN", code := "ALARM_PENDING_RAISE",
                 msg := "reason=sensor_spike streak=" ++ toString s.raise_streak ++
                   " needed=" ++ toString cfg.alarm_raise_after ++
                   " value=" ++ toString sensor_value }])
      else if s.state = .ALARMED then
        some ({ s with raise_streak := 0, tick_count := s.tick_count + 1 }, [tickEv])
      else
        let s := { s with raise_streak := s.raise_streak + 1 }
        if s.raise_streak < cfg.alarm_raise_after then
          match transition s now_ms .PENDING_RAISE "raise_pending" with
          | none => none
          | some (s, evs) =>
            some ({ s with tick_count := s.tick_count + 1 },
              tickEv :: evs ++
                [{ t_ms := now_ms, level := "WARN", code := "ALARM_PENDING_RAISE",
                   msg := "reason=sensor_spike streak=" ++ toString s.raise_streak ++
                     " needed=" ++ toString cfg.alarm_raise_after ++
                     " value=" ++ toString sensor_value }])
        else
          let s := { s with raise_streak := 0 }
          match transition s now_ms .ALARMED "raise_committed" with
          | none => none
          | some (s, evs) =>
            some ({ s with tick_count := s.tick_count + 1 },
              tickEv :: evs ++
                [{ t_ms := now_ms, level := "ERROR", code := "ALARM_RAISED",
                   msg := "reason=sensor_spike value=" ++ toString sensor_value }])
    else
      let s := { s with raise_streak := 0 }
      if s.state ≠ .ALARMED ∧ s.state ≠ .PENDING_CLEAR then
        let s := { s with clear_streak := 0 }
        match transition s now_ms .NOMINAL "nominal" with
        | none => none
        | some (s, evs) =>
          some ({ s with tick_count := s.tick_count + 1 }, tickEv :: evs)
      else
        let s := { s with clear_streak := s.clear_streak + 1 }
        if s.clear_streak < cfg.alarm_clear_after then
          match transition s now_ms .PENDING_CLEAR "clear_pending" with
          | none => none
          | some (s, evs) =>
            some ({ s with tick_count := s.tick_count + 1 },
              tickEv :: evs ++
                [{ t_ms := now_ms, level := "INFO", code := "ALARM_PENDING_CLEAR",
                   msg := "streak=" ++ toString s.clear_streak ++
                     " needed=" ++ toString cfg.alarm_clear_after ++
                     " value=" ++ toString sensor_value }])
        else
          let s := { s with clear_streak := 0 }
          match transition s now_ms .NOMINAL "clear_committed" with
          | none => none
          | some (s, evs) =>
            some ({ s with tick_count := s.tick_count + 1 },
              tickEv :: evs ++
                [{ t_ms := now_ms, level := "INFO", code := "ALARM_CLEARED",
                   msg := "reason=nominal" }])

/-- Run `tick` over a list of `(now_ms, faults)` inputs, threading the state and
concatenating emitted events; aborts (`none`) if any tick aborts. -/
def runTicks (cfg : AppConfig) : AppState → List (Int × List Fault) →
    Option (AppState × List LogEvent)
  | s, [] => some (s, [])
  | s, (now, fs) :: rest =>
    match tick cfg s now fs with
    | none => none
    | some (s1, evs1) =>
      match runTicks cfg s1 rest with
      | none => none
      | some (s2, evs2) => some (s2, evs1 ++ evs2)

/-! ### The near-duplicate implementation in `src/tests/test_state_machine_invariants.py`

Its `AppConfig` dataclass is field-for-field identical to the one in
`src/src/app/app.py`, so `AppConfig` is reused. Its `App` instance additionally
carries the legacy `_alarm_active` boolean, and its transition table differs for
`PENDING_CLEAR`.
-/

/-- Mutable fields of the `App` in `src/tests/test_state_machine_invariants.py`
(`_tick_count`, `_state`, `_alarm_active`, `_raise_streak`, `_clear_streak`). -/
structure AppStateT where
  tick_count : Nat
  state : AlarmState
  alarm_active : Bool
  raise_streak : Int
  clear_streak : Int
deriving DecidableEq, Repr

/-- Freshly constructed test-file `App`. -/
def initAppT : AppStateT :=
  { tick_count := 0, state := .NOMINAL, alarm_active := false,
    raise_streak := 0, clear_streak := 0 }

/-- `App._LEGAL_TRANSITIONS` from `src/tests/test_state_machine_invariants.py`:
unlike the table in `src/src/app/app.py`, `PENDING_CLEAR` may not go to
`ALARMED`. -/
def legalTransitionsT : AlarmState → List AlarmState
  | .NOMINAL => [.NOMINAL, .PENDING_RAISE, .ALARMED]
  | .PENDING_RAISE => [.PENDING_RAISE, .NOMINAL, .ALARMED]
  | .ALARMED => [.ALARMED, .PENDING_CLEAR]
  | .PENDING_CLEAR => [.PENDING_CLEAR, .NOMINAL, .PENDING_RAISE]

/-- `App._transition` from `src/tests/test_state_machine_invariants.py`. -/
def transitionT (s : AppStateT) (now_ms : Int) (to_state : AlarmState) (reason : String) :
    Option (AppStateT × List LogEvent) :=
  if to_state = s.state then
    some (s, [])
  else if to_state ∈ legalTransitionsT s.state then
    some ({ s with state := to_state },
      [{ t_ms := now_ms, level := "INFO", code := "STATE_TRANSITION",
         msg := "from=" ++ s.state.str ++ " to=" ++ to_state.str ++ " reason=" ++ reason }])
  else
    none

/-- `App.tick` from `src/tests/test_state_machine_invariants.py` (same
sensor-resolution loop as `src/src/app/app.py`, but: no streak reset on
`raise_committed`/`clear_committed`, and the legacy `_alarm_active` boolean is
kept in sync). -/
def tickT (cfg : AppConfig) (s : AppStateT) (now_ms : Int) (faults : List Fault) :
    Option (AppStateT × List LogEvent) :=
  let tickEv : LogEvent :=
    { t_ms := now_ms, level := "INFO", code := "APP_TICK",
      msg := "tick=" ++ toString s.tick_count }
  match resolveSensor faults with
  | none =>
    let s := { s with raise_streak := 0, clear_streak := 0 }
    if s.state ≠ .ALARMED then
      match transitionT s now_ms .ALARMED "dropout_immediate" with
      | none => none
      | some (s, evs) =>
        some ({ s with alarm_active := s.state == AlarmState.ALARMED, tick_count := s.tick_count + 1 },
          tickEv :: evs ++
            [{ t_ms := now_ms, level := "ERROR", code := "ALARM_RAISED",
               msg := "reason=sensor_dropout" }])
    else
      some ({ s with alarm_active := s.state == AlarmState.ALARMED, tick_count := s.tick_count + 1 },
        [tickEv])
  | some sensor_value =>
    if cfg.sensor_alarm_threshold ≤ sensor_value then
      if s.state = .PENDING_CLEAR then
        let s := { s with clear_streak := 0, raise_streak := 1 }
        match transitionT s now_ms .PENDING_RAISE "raise_pending" with
        | none => none
        | some (s, evs) =>
          some ({ s with alarm_active := s.state == AlarmState.ALARMED, tick_count := s.tick_count + 1 },
            tickEv :: evs ++
              [{ t_ms := now_ms, level := "WARN", code := "ALARM_PENDING_RAISE",
                 msg := "reason=sensor_spike streak=" ++ toString s.raise_streak ++
                   " needed=" ++ toString cfg.alarm_raise_after ++
                   " value=" ++ toString sensor_value }])
      else if s.state = .ALARMED then
        let s := { s with clear_streak := 0 }
        some ({ s with alarm_active := s.state == AlarmState.ALARMED, tick_count := s.tick_count + 1 },
          [tickEv])
      else
        let s := { s with clear_streak := 0, raise_streak := s.raise_streak + 1 }
        if s.raise_streak < cfg.alarm_raise_after then
          match transitionT s now_ms .PENDING_RAISE "raise_pending" with
          | none => none
          | some (s, evs) =>
            some ({ s with alarm_active := s.state == AlarmState.ALARMED, tick_count := s.tick_count + 1 },
              tickEv :: evs ++
                [{ t_ms := now_ms, level := "WARN", code := "ALARM_PENDING_RAISE",
                   msg := "reason=sensor_spike streak=" ++ toString s.raise_streak ++
                     " needed=" ++ toString cfg.alarm_raise_after ++
                     " value=" ++ toString sensor_value }])
        else
          match transitionT s now_ms .ALARMED "raise_committed" with
          | none => none
          | some (s, evs) =>
            some ({ s with alarm_active := s.state == AlarmState.ALARMED, tick_count := s.tick_count + 1 },
              tickEv :: evs ++
                [{ t_ms := now_ms, level := "ERROR", code := "ALARM_RAISED",
                   msg := "reason=sensor_spike value=" ++ toString sensor_value }])
    else
      if s.state ≠ .ALARMED ∧ s.state ≠ .PENDING_CLEAR then
        let s := { s with raise_streak := 0, clear_streak := 0 }
        match transitionT s now_ms .NOMINAL "nominal" with
        | none => none
        | some (s, evs) =>
          some ({ s with alarm_active := s.state == AlarmState.ALARMED, tick_count := s.tick_count + 1 },
            tickEv :: evs)
      else
        let s := { s with raise_streak := 0, clear_streak := s.clear_streak + 1 }
        if s.clear_streak < cfg.alarm_clear_after then
          match transitionT s now_ms .PENDING_CLEAR "clear_pending" with
          | none => none
          | some (s, evs) =>
            some ({ s with alarm_active := s.state == AlarmState.ALARMED, tick_count := s.tick_count + 1 },
              tickEv :: evs ++
                [{ t_ms := now_ms, level := "INFO", code := "ALARM_PENDING_CLEAR",
                   msg := "streak=" ++ toString s.clear_streak ++
                     " needed=" ++ toString cfg.alarm_clear_after ++
                     " value=" ++ toString sensor_value }])
        else
          match transitionT s now_ms .NOMINAL "clear_committed" with
          | none => none
          | some (s, evs) =>
            some ({ s with alarm_active := s.state == AlarmState.ALARMED, tick_count := s.tick_count + 1 },
              tickEv :: evs ++
                [{ t_ms := now_ms, level := "INFO", code := "ALARM_CLEARED",
                   msg := "reason=nominal" }])

/-! ### Driver (`src/src/main.py`) and log formatting (`src/src/utils/logging.py`) -/

/-- `ScenarioEngine.faults_at_tick` from `src/src/sim/engine.py`: the scenario
faults whose `tick` equals the given tick index, in scenario order. -/
def faults_at_tick (sc : List Fault) (t : Nat) : List Fault :=
  sc.filter (fun f => f.tick == t)

/-- The tick loop of `run_app` in `src/src/main.py`. The `SimClock` of
`src/src/sim/clock.py` starts at 0 and advances by `tick_ms` once per tick, so
`now_ms` at tick index `t` is `t * tick_ms`. -/
def runLoop (cfg : AppConfig) (sc : List Fault) : AppState → List Nat → Option (List LogEvent)
  | _, [] => some []
  | s, t :: rest =>
    let now : Int := (t : Int) * cfg.tick_ms
    let fs := faults_at_tick sc t
    let injected : List LogEvent := fs.map (fun f =>
      { t_ms := now, level := "WARN", code := "FAULT_INJECTED",
        msg := "kind=" ++ f.kind ++ " value=" ++ toString f.value ++
          " tick=" ++ toString t })
    match tick cfg s now fs with
    | none => none
    | some (s1, evs) =>
      match runLoop cfg sc s1 rest with
      | none => none
      | some tail => some (injected ++ evs ++ tail)

/-- `run_app` from `src/src/main.py`: `BOOT`, the tick loop over ticks
`0 .. total_ticks - 1`, then `SHUTDOWN`. The scenario is its fault list
(`ScenarioEngine` only filters it per tick). -/
def run_app (cfg : AppConfig) (sc : List Fault) : Option (List LogEvent) :=
  match runLoop cfg sc initApp (List.range cfg.total_ticks) with
  | none => none
  | some body =>
    some
      ({ t_ms := 0, level := "INFO", code := "BOOT",
         msg := "tick_ms=" ++ toString cfg.tick_ms ++
           " total_ticks=" ++ toString cfg.total_ticks } ::
        body ++
          [{ t_ms := (cfg.total_ticks : Int) * cfg.tick_ms, level := "INFO",
             code := "SHUTDOWN", msg := "reason=completed_ticks" }])

/-- Python `format(n, "06d")`: zero-pad to width 6, the sign counting toward
the width. -/
def pad06 (n : Int) : String :=
  let sign := if n < 0 then "-" else ""
  let digits := toString n.natAbs
  sign ++ String.mk (List.replicate (6 - sign.length - digits.length) '0') ++ digits

/-- `format_event` from `src/src/utils/logging.py`. -/
def format_event (e : LogEvent) : String :=
  "t=" ++ pad06 e.t_ms ++ "ms | " ++ e.level ++ " | " ++ e.code ++ " | " ++ e.msg

/-! ### Metrics aggregator (`src/src/utils/metrics.py`) -/

/-- `RunMetrics` dataclass from `src/src/utils/metrics.py`. -/
structure RunMetrics where
  alarms_raised : Nat := 0
  alarms_cleared : Nat := 0
  alarmed_ms : Int := 0
  nominal_ms : Int := 0
  faults_injected : Nat := 0
  dropout_faults : Nat := 0
  spike_faults : Nat := 0
  clear_durations_ms_total : Int := 0
  clear_durations_count : Nat := 0
deriving DecidableEq, Repr

/-- `RunMetrics.mean_time_to_clear_ms`: `None` when no clear-duration samples
exist, else true division of the sum by the count (Python float division,
modelled exactly as a rational). -/
def mean_time_to_clear_ms (m : RunMetrics) : Option ℚ :=
  if m.clear_durations_count = 0 then none
  else some ((m.clear_durations_ms_total : ℚ) / (m.clear_durations_count : ℚ))

/-- Is `pat` a leading segment of `l`? (helper for Python's `in` on strings). -/
def chSeg : List Char → List Char → Bool
  | [], _ => true
  | _ :: _, [] => false
  | a :: as, b :: bs => (a == b) && chSeg as bs

/-- Does `pat` occur contiguously somewhere in the second list? -/
def chSub (pat : List Char) : List Char → Bool
  | [] => chSeg pat []
  | b :: bs => chSeg pat (b :: bs) || chSub pat bs

/-- Python's `pat in s` substring test. -/
def strIn (pat s : String) : Bool := chSub pat.data s.data

/-- Mutable fields of `MetricsCollector` from `src/src/utils/metrics.py`
(`_tick_ms`, `_m`, `_alarmed`, `_alarm_start_ms`). -/
structure MetricsCollector where
  tick_ms : Int
  m : RunMetrics
  alarmed : Bool
  alarm_start_ms : Option Int
deriving DecidableEq, Repr

/-- `MetricsCollector.__init__`. -/
def initCollector (tick_ms : Int) : MetricsCollector :=
  { tick_ms := tick_ms, m := {}, alarmed := false, alarm_start_ms := none }

/-- `MetricsCollector.consume` from `src/src/utils/metrics.py`: four
independent `if` blocks over the event code. -/
def consume (c : MetricsCollector) (e : LogEvent) : MetricsCollector :=
  let c :=
    if e.code = "FAULT_INJECTED" then
      let m := { c.m with faults_injected := c.m.faults_injected + 1 }
      let m :=
        if strIn "kind=dropout" e.msg then
          { m with dropout_faults := m.dropout_faults + 1 }
        else m
      let m :=
        if strIn "kind=sensor_spike" e.msg then
          { m with spike_faults := m.spike_faults + 1 }
        else m
      { c with m := m }
    else c
  let c :=
    if e.code = "ALARM_RAISED" then
      let c := { c with m := { c.m with alarms_raised := c.m.alarms_raised + 1 } }
      if c.alarmed then c
      else { c with alarmed := true, alarm_start_ms := some e.t_ms }
    else c
  let c :=
    if e.code = "ALARM_CLEARED" then
      let c := { c with m := { c.m with alarms_cleared := c.m.alarms_cleared + 1 } }
      let c :=
        if c.alarmed then
          match c.alarm_start_ms with
          | some start =>
            { c with m := { c.m with
                clear_durations_ms_total := c.m.clear_durations_ms_total + (e.t_ms - start),
                clear_durations_count := c.m.clear_durations_count + 1 } }
          | none => c
        else c
      { c with alarmed := false, alarm_start_ms := none }
    else c
  if e.code = "APP_TICK" then
    if c.alarmed then
      { c with m := { c.m with alarmed_ms := c.m.alarmed_ms + c.tick_ms } }
    else
      { c with m := { c.m with nominal_ms := c.m.nominal_ms + c.tick_ms } }
  else c

/-- Folding a whole event log through the collector, as `main.py` does. -/
def consumeAll (c : MetricsCollector) (evs : List LogEvent) : MetricsCollector :=
  evs.foldl consume c

def cfg0 : AppConfig := {}

/-- The machine state after one spike tick from the initial state (used by the
C8 witness). -/
def postSpikeState : AppState :=
  { tick_count := 1, state := .PENDING_RAISE, raise_streak := 1, clear_streak := 0 }

/-- The event log used in the C9 example: two alarm windows, cleared after
20 ms and 40 ms respectively. -/
def c9ExampleLog : List LogEvent :=
  [{ t_ms := 0, level := "ERROR", code := "ALARM_RAISED",
     msg := "reason=sensor_spike value=1500" },
   { t_ms := 20, level := "INFO", code := "ALARM_CLEARED", msg := "reason=nominal" },
   { t_ms := 100, level := "ERROR", code := "ALARM_RAISED",
     msg := "reason=sensor_spike value=1500" },
   { t_ms := 140, level := "INFO", code := "ALARM_CLEARED", msg := "reason=nominal" }]

/-- A concrete pending-clear state of the test-file machine (C10). -/
def pcStateT : AppStateT :=
  { tick_count := 3, state := .PENDING_CLEAR, alarm_active := true,
    raise_streak := 0, clear_streak := 1 }

/-- A concrete pending-clear state of the `src/src/app/app.py` machine (C10). -/
def pcState : AppState :=
  { tick_count := 3, state := .PENDING_CLEAR, raise_streak := 0, clear_streak := 1 }


/-- C1. The spec states that a `dropout` anomaly makes the resolved reading
absent regardless of the positions of `sensor_spike` anomalies in the list,
and that the tick then behaves as if only the dropout were present. The
resolution loop in `App.tick` (and the code's own comment "If multiple faults
exist, dropout wins over spike") contradicts this: a `sensor_spike` listed
after a `dropout` overwrites the absent reading. With faults
`[dropout, sensor_spike 2000]` the reading resolves to `2000` (present), and
the tick from the initial state differs from the dropout-only tick (pending
raise instead of an immediate alarm). -/
theorem c1_dropout_dominance_fails_on_spike_after_dropout :
    resolveSensor [⟨0, "dropout", 1⟩, ⟨0, "sensor_spike", 2000⟩] = some 2000 ∧
    tick cfg0 initApp 0 [⟨0, "dropout", 1⟩, ⟨0, "sensor_spike", 2000⟩] ≠
      tick cfg0 initApp 0 [⟨0, "dropout", 1⟩] := by
  decide

/-- C2 counterexample. The claim quantifies over all configurations with both
debounce counts ≥ 1, but with `alarm_clear_after = 1` the decision policy
attempts the illegal transition `ALARMED → NOMINAL`: a dropout tick followed
by a nominal tick aborts on the `_transition` assertion (`runTicks` = `none`). -/
theorem c2_assertion_fires_with_clear_after_one :
    1 ≤ ({ alarm_clear_after := 1 } : AppConfig).alarm_raise_after ∧
    1 ≤ ({ alarm_clear_after := 1 } : AppConfig).alarm_clear_after ∧
    runTicks { alarm_clear_after := 1 } initApp
      [(0, [⟨0, "dropout", 1⟩]), (10, [])] = none := by
  decide

/-- Any successful tick leaves `clear_streak = 0` whenever the post-state is
`ALARMED` (every path into or through `ALARMED` resets it). -/
lemma tick_clear_inv (cfg : AppConfig) (s : AppState) (now : Int) (fs : List Fault)
    (s' : AppState) (evs : List LogEvent) (h : tick cfg s now fs = some (s', evs)) :
    s'.state = .ALARMED → s'.clear_streak = 0 := by
  obtain ⟨tc, st, rs, cs⟩ := s
  cases hr : resolveSensor fs with
  | none =>
    cases st <;>
      simp [tick, hr, transition, legalTransitions] at h <;>
      obtain ⟨h1, h2⟩ := h <;> subst h1 <;> simp
  | some v =>
    by_cases hv : cfg.sensor_alarm_threshold ≤ v
    · cases st <;> by_cases hrr : rs + 1 < cfg.alarm_raise_after <;>
        simp [tick, hr, hv, hrr, transition, legalTransitions] at h <;>
        obtain ⟨h1, h2⟩ := h <;> subst h1 <;> simp
    · cases st <;> by_cases hcc : cs + 1 < cfg.alarm_clear_after <;>
        simp [tick, hr, hv, hcc, transition, legalTransitions] at h <;>
        obtain ⟨h1, h2⟩ := h <;> subst h1 <;> simp

/-- When `alarm_clear_after ≥ 2` and the pre-state satisfies the
`ALARMED → clear_streak = 0` invariant, every transition `tick` attempts is in
the legal table, so the call returns (the assertion cannot fire). -/
lemma tick_isSome_of_clear_inv (cfg : AppConfig) (h2 : 2 ≤ cfg.alarm_clear_after)
    (s : AppState) (hs : s.state = .ALARMED → s.clear_streak = 0)
    (now : Int) (fs : List Fault) : (tick cfg s now fs).isSome := by
  obtain ⟨tc, st, rs, cs⟩ := s
  have hcs : st = AlarmState.ALARMED → cs = 0 := hs
  cases hr : resolveSensor fs with
  | none =>
    cases st <;> simp [tick, hr, transition, legalTransitions]
  | some v =>
    by_cases hv : cfg.sensor_alarm_threshold ≤ v
    · cases st <;> by_cases hrr : rs + 1 < cfg.alarm_raise_after <;>
        simp [tick, hr, hv, hrr, transition, legalTransitions]
    · cases st with
      | NOMINAL => simp [tick, hr, hv, transition, legalTransitions]
      | PENDING_RAISE => simp [tick, hr, hv, transition, legalTransitions]
      | ALARMED =>
        have hc0 : cs = 0 := hcs rfl
        have hcc : cs + 1 < cfg.alarm_clear_after := by omega
        simp [tick, hr, hv, hcc, transition, legalTransitions]
      | PENDING_CLEAR =>
        by_cases hcc : cs + 1 < cfg.alarm_clear_after <;>
          simp [tick, hr, hv, hcc, transition, legalTransitions]

/-- Lifting `tick_isSome_of_clear_inv` along a whole input sequence. -/
lemma runTicks_isSome_of_clear_inv (cfg : AppConfig) (h2 : 2 ≤ cfg.alarm_clear_after) :
    ∀ (inputs : List (Int × List Fault)) (s : AppState),
      (s.state = .ALARMED → s.clear_streak = 0) →
      (runTicks cfg s inputs).isSome := by
  intro inputs
  induction inputs with
  | nil => intro s _; simp [runTicks]
  | cons p rest ih =>
    intro s hs
    obtain ⟨now, fs⟩ := p
    have h1 := tick_isSome_of_clear_inv cfg h2 s hs now fs
    cases hh : tick cfg s now fs with
    | none => rw [hh] at h1; simp at h1
    | some r =>
      obtain ⟨s1, evs1⟩ := r
      have hnext := ih s1 (tick_clear_inv cfg s now fs s1 evs1 hh)
      cases hh2 : runTicks cfg s1 rest with
      | none => rw [hh2] at hnext; simp at hnext
      | some r2 =>
        obtain ⟨s2, evs2⟩ := r2
        simp [runTicks, hh, hh2]

/-- C2 (amended). For every configuration with raise debounce count ≥ 1 and
clear debounce count ≥ 2, and every finite sequence of tick inputs applied to a
freshly constructed machine, every state transition attempted by the decision
policy is present in the legal-transition table, so the fatal illegal-transition
assertion in `_transition` never fails (the run never aborts). -/
theorem c2_assertion_never_fires_when_clear_after_ge_two (cfg : AppConfig)
    (h1 : 1 ≤ cfg.alarm_raise_after) (h2 : 2 ≤ cfg.alarm_clear_after)
    (inputs : List (Int × List Fault)) :
    (runTicks cfg initApp inputs).isSome := by
  exact runTicks_isSome_of_clear_inv cfg h2 inputs initApp (fun _ => rfl)

/-- Witness for the amended C2 theorem at the default configuration and a
concrete three-tick schedule (spike, dropout, nominal). -/
theorem c2_assertion_never_fires_witness :
    1 ≤ cfg0.alarm_raise_after ∧ 2 ≤ cfg0.alarm_clear_after ∧
    (runTicks cfg0 initApp
      [(0, [⟨0, "sensor_spike", 1500⟩]), (10, [⟨1, "dropout", 1⟩]), (20, [])]).isSome := by
  refine ⟨by decide, by decide, ?_⟩
  exact c2_assertion_never_fires_when_clear_after_ge_two cfg0 (by decide) (by decide) _

/-- C4. In state `PENDING_CLEAR`, a present reading at or above the threshold
sets `raise_streak` to 1, transitions to `PENDING_RAISE` with reason
`raise_pending`, and emits `ALARM_PENDING_RAISE` carrying streak/needed/value;
the tick never re-raises directly to `ALARMED` and emits no `ALARM_RAISED`. -/
theorem c4_pending_clear_spike_restarts_debounce (cfg : AppConfig) (s : AppState)
    (now v : Int) (fs : List Fault)
    (hs : s.state = .PENDING_CLEAR)
    (hr : resolveSensor fs = some v)
    (hv : cfg.sensor_alarm_threshold ≤ v) :
    tick cfg s now fs =
      some ({ s with
          state := .PENDING_RAISE, raise_streak := 1, clear_streak := 0,
          tick_count := s.tick_count + 1 },
        [{ t_ms := now, level := "INFO", code := "APP_TICK",
           msg := "tick=" ++ toString s.tick_count },
         { t_ms := now, level := "INFO", code := "STATE_TRANSITION",
           msg := "from=PENDING_CLEAR to=PENDING_RAISE reason=raise_pending" },
         { t_ms := now, level := "WARN", code := "ALARM_PENDING_RAISE",
           msg := "reason=sensor_spike streak=" ++ toString (1 : Int) ++
             " needed=" ++ toString cfg.alarm_raise_after ++
             " value=" ++ toString v }]) ∧
    ∀ s' evs, tick cfg s now fs = some (s', evs) →
      s'.state = .PENDING_RAISE ∧ s'.raise_streak = 1 ∧
      ∀ e ∈ evs, e.code ≠ "ALARM_RAISED" := by
  obtain ⟨tc, st, rs, cs⟩ := s
  have hst : st = .PENDING_CLEAR := hs
  subst hst
  have heq :
      tick cfg ⟨tc, .PENDING_CLEAR, rs, cs⟩ now fs =
        some (⟨tc + 1, .PENDING_RAISE, 1, 0⟩,
          [{ t_ms := now, level := "INFO", code := "APP_TICK",
             msg := "tick=" ++ toString tc },
           { t_ms := now, level := "INFO", code := "STATE_TRANSITION",
             msg := "from=PENDING_CLEAR to=PENDING_RAISE reason=raise_pending" },
           { t_ms := now, level := "WARN", code := "ALARM_PENDING_RAISE",
             msg := "reason=sensor_spike streak=" ++ toString (1 : Int) ++
               " needed=" ++ toString cfg.alarm_raise_after ++
               " value=" ++ toString v }]) := by
    simp [tick, hr, hv, transition, legalTransitions, AlarmState.str]
  refine ⟨heq, ?_⟩
  intro s' evs h
  rw [heq] at h
  simp only [Option.some.injEq, Prod.mk.injEq] at h
  obtain ⟨h1, h2⟩ := h
  subst h1
  subst h2
  refine ⟨rfl, rfl, ?_⟩
  intro e he
  simp only [List.mem_cons, List.mem_singleton, List.not_mem_nil] at he
  rcases he with rfl | rfl | rfl | hfalse
  · simp
  · simp
  · simp
  · exact absurd hfalse (by simp)

/-- Witness for C4 at a concrete pending-clear state and a single spike fault. -/
theorem c4_pending_clear_spike_restarts_debounce_witness :
    (({ tick_count := 5, state := .PENDING_CLEAR, raise_streak := 0,
        clear_streak := 1 } : AppState).state = AlarmState.PENDING_CLEAR) ∧
    resolveSensor [⟨5, "sensor_spike", 1500⟩] = some 1500 ∧
    cfg0.sensor_alarm_threshold ≤ 1500 ∧
    tick cfg0
        { tick_count := 5, state := .PENDING_CLEAR, raise_streak := 0, clear_streak := 1 }
        50 [⟨5, "sensor_spike", 1500⟩] =
      some ({ tick_count := 6, state := .PENDING_RAISE, raise_streak := 1, clear_streak := 0 },
        [{ t_ms := 50, level := "INFO", code := "APP_TICK", msg := "tick=5" },
         { t_ms := 50, level := "INFO", code := "STATE_TRANSITION",
           msg := "from=PENDING_CLEAR to=PENDING_RAISE reason=raise_pending" },
         { t_ms := 50, level := "WARN", code := "ALARM_PENDING_RAISE",
           msg := "reason=sensor_spike streak=1 needed=2 value=1500" }]) := by
  refine ⟨rfl, by decide, by decide, ?_⟩
  have h := (c4_pending_clear_spike_restarts_debounce cfg0
    { tick_count := 5, state := .PENDING_CLEAR, raise_streak := 0, clear_streak := 1 }
    50 1500 [⟨5, "sensor_spike", 1500⟩] rfl (by decide) (by decide)).1
  rw [h]
  decide

/-- In state `ALARMED`, a dropout tick resets both streaks, produces no
transition, and emits only `APP_TICK`. -/
lemma tick_alarmed_dropout (cfg : AppConfig) (s : AppState) (now : Int)
    (fs : List Fault) (hs : s.state = .ALARMED) (hr : resolveSensor fs = none) :
    tick cfg s now fs =
      some ({ s with
          raise_streak := 0, clear_streak := 0, tick_count := s.tick_count + 1 },
        [{ t_ms := now, level := "INFO", code := "APP_TICK",
           msg := "tick=" ++ toString s.tick_count }]) := by
  obtain ⟨tc, st, rs, cs⟩ := s
  have hst : st = .ALARMED := hs
  subst hst
  simp [tick, hr]

/-- C5. From state `ALARMED`, any finite run of ticks whose readings all
resolve to absent (dropout) succeeds, stays in `ALARMED`, and emits nothing but
`APP_TICK` events: no `STATE_TRANSITION`, and in particular no second
`ALARM_RAISED` while the dropout persists. -/
theorem c5_alarmed_dropout_ticks_emit_only_app_tick (cfg : AppConfig) :
    ∀ (inputs : List (Int × List Fault)) (s : AppState), s.state = .ALARMED →
      (∀ p ∈ inputs, resolveSensor p.2 = none) →
      ∃ s' evs, runTicks cfg s inputs = some (s', evs) ∧ s'.state = .ALARMED ∧
        ∀ e ∈ evs, e.code = "APP_TICK" := by
  intro inputs
  induction inputs with
  | nil =>
    intro s hs _
    exact ⟨s, [], rfl, hs, by simp⟩
  | cons p rest ih =>
    intro s hs hd
    obtain ⟨now, fs⟩ := p
    have h1 := tick_alarmed_dropout cfg s now fs hs (hd (now, fs) (by simp))
    obtain ⟨s2, evs2, hrun2, hst2, hcodes2⟩ :=
      ih { s with raise_streak := 0, clear_streak := 0, tick_count := s.tick_count + 1 }
        (by simpa using hs) (fun q hq => hd q (by simp [hq]))
    refine ⟨s2,
      [{ t_ms := now, level := "INFO", code := "APP_TICK",
         msg := "tick=" ++ toString s.tick_count }] ++ evs2, ?_, hst2, ?_⟩
    · simp only [runTicks, h1, hrun2]
    · intro e he
      simp only [List.cons_append, List.nil_append, List.mem_cons] at he
      rcases he with rfl | he
      · rfl
      · exact hcodes2 e he

/-- Witness for C5: two dropout ticks from a concrete alarmed state. -/
theorem c5_alarmed_dropout_ticks_witness :
    ∃ s' evs,
      runTicks cfg0
        { tick_count := 4, state := .ALARMED, raise_streak := 0, clear_streak := 0 }
        [(40, [⟨4, "dropout", 1⟩]), (50, [⟨5, "dropout", 1⟩])] = some (s', evs) ∧
      s'.state = .ALARMED ∧ ∀ e ∈ evs, e.code = "APP_TICK" := by
  exact c5_alarmed_dropout_ticks_emit_only_app_tick cfg0
    [(40, [⟨4, "dropout", 1⟩]), (50, [⟨5, "dropout", 1⟩])]
    { tick_count := 4, state := .ALARMED, raise_streak := 0, clear_streak := 0 }
    rfl (by decide)

/-- C7. Every call to `tick` that returns yields a sequence whose first event
is `APP_TICK` carrying the pre-increment tick counter, `APP_TICK` appears
exactly once in that sequence, and the tick counter increments exactly once,
on every decision branch. -/
theorem c7_app_tick_first_once_counter_increments (cfg : AppConfig) (s : AppState)
    (now : Int) (fs : List Fault) (s' : AppState) (evs : List LogEvent)
    (h : tick cfg s now fs = some (s', evs)) :
    s'.tick_count = s.tick_count + 1 ∧
    ∃ tl, evs = { t_ms := now, level := "INFO", code := "APP_TICK",
                  msg := "tick=" ++ toString s.tick_count } :: tl ∧
      ∀ e ∈ tl, e.code ≠ "APP_TICK" := by
  obtain ⟨tc, st, rs, cs⟩ := s
  cases hr : resolveSensor fs with
  | none =>
    cases st <;>
      simp [tick, hr, transition, legalTransitions] at h <;>
      obtain ⟨h1, h2⟩ := h <;> subst h1 <;> subst h2 <;>
      simp [AlarmState.str]
  | some v =>
    by_cases hv : cfg.sensor_alarm_threshold ≤ v
    · cases st <;> by_cases hrr : rs + 1 < cfg.alarm_raise_after <;>
        simp [tick, hr, hv, hrr, transition, legalTransitions] at h <;>
        obtain ⟨h1, h2⟩ := h <;> subst h1 <;> subst h2 <;>
        simp [AlarmState.str]
    · cases st <;> by_cases hcc : cs + 1 < cfg.alarm_clear_after <;>
        simp [tick, hr, hv, hcc, transition, legalTransitions] at h <;>
        obtain ⟨h1, h2⟩ := h <;> subst h1 <;> subst h2 <;>
        simp [AlarmState.str]

/-- Witness for C7 at the initial state and a single spike tick. -/
theorem c7_app_tick_witness :
    ∃ tl,
      [({ t_ms := 0, level := "INFO", code := "APP_TICK", msg := "tick=0" } : LogEvent),
       { t_ms := 0, level := "INFO", code := "STATE_TRANSITION",
         msg := "from=NOMINAL to=PENDING_RAISE reason=raise_pending" },
       { t_ms := 0, level := "WARN", code := "ALARM_PENDING_RAISE",
         msg := "reason=sensor_spike streak=1 needed=2 value=1500" }] =
        { t_ms := 0, level := "INFO", code := "APP_TICK",
              msg := "tick=" ++ toString initApp.tick_count } :: tl ∧
      ∀ e ∈ tl, e.code ≠ "APP_TICK" := by
  exact (c7_app_tick_first_once_counter_increments cfg0 initApp 0
    [⟨0, "sensor_spike", 1500⟩]
    { tick_count := 1, state := .PENDING_RAISE, raise_streak := 1, clear_streak := 0 }
    _ (by decide)).2

/-- Any successful tick from a state with non-negative streaks of which at most
one is nonzero yields a state with the same property (C8 preservation step). -/
lemma tick_streak_inv (cfg : AppConfig) (s : AppState) (now : Int) (fs : List Fault)
    (s' : AppState) (evs : List LogEvent) (h : tick cfg s now fs = some (s', evs))
    (hinv : 0 ≤ s.raise_streak ∧ 0 ≤ s.clear_streak ∧
      (s.raise_streak = 0 ∨ s.clear_streak = 0)) :
    0 ≤ s'.raise_streak ∧ 0 ≤ s'.clear_streak ∧
      (s'.raise_streak = 0 ∨ s'.clear_streak = 0) := by
  obtain ⟨tc, st, rs, cs⟩ := s
  have hr0 : 0 ≤ rs := hinv.1
  have hc0 : 0 ≤ cs := hinv.2.1
  cases hr : resolveSensor fs with
  | none =>
    cases st <;>
      simp [tick, hr, transition, legalTransitions] at h <;>
      obtain ⟨h1, h2⟩ := h <;> subst h1 <;> simp
  | some v =>
    by_cases hv : cfg.sensor_alarm_threshold ≤ v
    · cases st <;> by_cases hrr : rs + 1 < cfg.alarm_raise_after <;>
        simp [tick, hr, hv, hrr, transition, legalTransitions] at h <;>
        obtain ⟨h1, h2⟩ := h <;> subst h1 <;> simp <;> omega
    · cases st <;> by_cases hcc : cs + 1 < cfg.alarm_clear_after <;>
        simp [tick, hr, hv, hcc, transition, legalTransitions] at h <;>
        obtain ⟨h1, h2⟩ := h <;> subst h1 <;> simp <;> omega

/-- Lifting `tick_streak_inv` along a whole run. -/
lemma runTicks_streak_inv (cfg : AppConfig) :
    ∀ (inputs : List (Int × List Fault)) (s : AppState),
      (0 ≤ s.raise_streak ∧ 0 ≤ s.clear_streak ∧
        (s.raise_streak = 0 ∨ s.clear_streak = 0)) →
      ∀ s' evs, runTicks cfg s inputs = some (s', evs) →
        0 ≤ s'.raise_streak ∧ 0 ≤ s'.clear_streak ∧
          (s'.raise_streak = 0 ∨ s'.clear_streak = 0) := by
  intro inputs
  induction inputs with
  | nil =>
    intro s hinv s' evs h
    simp only [runTicks, Option.some.injEq, Prod.mk.injEq] at h
    obtain ⟨h1, _⟩ := h
    subst h1
    exact hinv
  | cons p rest ih =>
    intro s hinv s' evs h
    obtain ⟨now, fs⟩ := p
    cases h1 : tick cfg s now fs with
    | none => simp [runTicks, h1] at h
    | some r =>
      obtain ⟨s1, evs1⟩ := r
      cases h2 : runTicks cfg s1 rest with
      | none => simp [runTicks, h1, h2] at h
      | some r2 =>
        obtain ⟨s2, evs2⟩ := r2
        simp only [runTicks, h1, h2, Option.some.injEq, Prod.mk.injEq] at h
        obtain ⟨hs2, _⟩ := h
        subst hs2
        exact ih s1 (tick_streak_inv cfg s now fs s1 evs1 h1 hinv) s2 evs2 h2

/-- C8. After every tick of any run starting from a freshly constructed
machine, both streak counters are non-negative and at most one of them is
nonzero (raise and clear debouncing never interleave their counts). -/
theorem c8_streaks_nonneg_and_exclusive (cfg : AppConfig)
    (inputs : List (Int × List Fault)) (s' : AppState) (evs : List LogEvent)
    (h : runTicks cfg initApp inputs = some (s', evs)) :
    0 ≤ s'.raise_streak ∧ 0 ≤ s'.clear_streak ∧
      (s'.raise_streak = 0 ∨ s'.clear_streak = 0) := by
  exact runTicks_streak_inv cfg inputs initApp (by simp [initApp]) s' evs h

/-- Witness for C8 after one spike tick from the initial state. -/
theorem c8_streaks_witness :
    0 ≤ postSpikeState.raise_streak ∧ 0 ≤ postSpikeState.clear_streak ∧
      (postSpikeState.raise_streak = 0 ∨ postSpikeState.clear_streak = 0) := by
  exact c8_streaks_nonneg_and_exclusive cfg0 [(0, [⟨0, "sensor_spike", 1500⟩])]
    postSpikeState
    [{ t_ms := 0, level := "INFO", code := "APP_TICK", msg := "tick=0" },
     { t_ms := 0, level := "INFO", code := "STATE_TRANSITION",
       msg := "from=NOMINAL to=PENDING_RAISE reason=raise_pending" },
     { t_ms := 0, level := "WARN", code := "ALARM_PENDING_RAISE",
       msg := "reason=sensor_spike streak=1 needed=2 value=1500" }]
    (by decide)

/-- C3. Determinism as a two-run property: `run_app` (hence the per-tick
decision function it folds) is a pure function of the configuration and the
anomaly schedule, so running the same schedule twice through a fresh machine
yields identical event logs, byte-for-byte after `format_event` rendering.
The embedding witnesses that the source tick path consumes no input other than
the explicit state and the scheduled faults. -/
theorem c3_replay_determinism (cfg : AppConfig) (sc1 sc2 : List Fault)
    (h : sc1 = sc2) :
    (run_app cfg sc1).map (fun evs => evs.map format_event) =
    (run_app cfg sc2).map (fun evs => evs.map format_event) := by
  rw [h]

/-- Witness for C3 on a concrete two-fault scenario. -/
theorem c3_replay_determinism_witness :
    (run_app cfg0 [⟨0, "sensor_spike", 1500⟩, ⟨1, "dropout", 1⟩]).map
      (fun evs => evs.map format_event) =
    (run_app cfg0 [⟨0, "sensor_spike", 1500⟩, ⟨1, "dropout", 1⟩]).map
      (fun evs => evs.map format_event) := by
  exact c3_replay_determinism cfg0 _ _ rfl

/-- C6. With `alarm_raise_after = 2`, from the initial `NOMINAL` state: one
tick with a present value at or above the threshold emits
`ALARM_PENDING_RAISE` and no `ALARM_RAISED`; a second consecutive such tick
emits `ALARM_RAISED` together with a `STATE_TRANSITION` to `ALARMED`. -/
theorem c6_two_spike_ticks_raise_on_second (cfg : AppConfig)
    (h2 : cfg.alarm_raise_after = 2) (now1 now2 v1 v2 : Int) (fs1 fs2 : List Fault)
    (hr1 : resolveSensor fs1 = some v1) (hv1 : cfg.sensor_alarm_threshold ≤ v1)
    (hr2 : resolveSensor fs2 = some v2) (hv2 : cfg.sensor_alarm_threshold ≤ v2) :
    ∃ s1 evs1 s2 evs2,
      tick cfg initApp now1 fs1 = some (s1, evs1) ∧
      "ALARM_PENDING_RAISE" ∈ evs1.map LogEvent.code ∧
      "ALARM_RAISED" ∉ evs1.map LogEvent.code ∧
      tick cfg s1 now2 fs2 = some (s2, evs2) ∧
      "ALARM_RAISED" ∈ evs2.map LogEvent.code ∧
      s2.state = .ALARMED ∧
      ({ t_ms := now2, level := "INFO", code := "STATE_TRANSITION",
         msg := "from=PENDING_RAISE to=ALARMED reason=raise_committed" } : LogEvent)
        ∈ evs2 := by
  have t1 : tick cfg initApp now1 fs1 =
      some (⟨1, .PENDING_RAISE, 1, 0⟩,
        [{ t_ms := now1, level := "INFO", code := "APP_TICK", msg := "tick=" ++ toString (0 : Nat) },
         { t_ms := now1, level := "INFO", code := "STATE_TRANSITION",
           msg := "from=NOMINAL to=PENDING_RAISE reason=raise_pending" },
         { t_ms := now1, level := "WARN", code := "ALARM_PENDING_RAISE",
           msg := "reason=sensor_spike streak=" ++ toString (1 : Int) ++
             " needed=" ++ toString (2 : Int) ++ " value=" ++ toString v1 }]) := by
    simp [tick, hr1, hv1, h2, initApp, transition, legalTransitions, AlarmState.str]
  have t2 : tick cfg ⟨1, .PENDING_RAISE, 1, 0⟩ now2 fs2 =
      some (⟨2, .ALARMED, 0, 0⟩,
        [{ t_ms := now2, level := "INFO", code := "APP_TICK", msg := "tick=" ++ toString (1 : Nat) },
         { t_ms := now2, level := "INFO", code := "STATE_TRANSITION",
           msg := "from=PENDING_RAISE to=ALARMED reason=raise_committed" },
         { t_ms := now2, level := "ERROR", code := "ALARM_RAISED",
           msg := "reason=sensor_spike value=" ++ toString v2 }]) := by
    simp [tick, hr2, hv2, h2, transition, legalTransitions, AlarmState.str]
  refine ⟨_, _, _, _, t1, by simp, by simp, t2, by simp, rfl, by simp⟩

/-- Witness for C6 with two concrete spike ticks at value 1500. -/
theorem c6_two_spike_ticks_witness :
    ∃ s1 evs1 s2 evs2,
      tick cfg0 initApp 0 [⟨0, "sensor_spike", 1500⟩] = some (s1, evs1) ∧
      "ALARM_PENDING_RAISE" ∈ evs1.map LogEvent.code ∧
      "ALARM_RAISED" ∉ evs1.map LogEvent.code ∧
      tick cfg0 s1 10 [⟨1, "sensor_spike", 1500⟩] = some (s2, evs2) ∧
      "ALARM_RAISED" ∈ evs2.map LogEvent.code ∧
      s2.state = .ALARMED ∧
      ({ t_ms := 10, level := "INFO", code := "STATE_TRANSITION",
         msg := "from=PENDING_RAISE to=ALARMED reason=raise_committed" } : LogEvent)
        ∈ evs2 := by
  exact c6_two_spike_ticks_raise_on_second cfg0 rfl 0 10 1500 1500
    [⟨0, "sensor_spike", 1500⟩] [⟨1, "sensor_spike", 1500⟩]
    (by decide) (by decide) (by decide) (by decide)

/-- C9. `mean_time_to_clear_ms` returns no numeric result exactly when the
clear-duration sample count is 0, and otherwise returns the cumulative
clear-duration sum divided by the sample count; consuming a log with two
clears of durations 20 ms and 40 ms yields a mean of 30 ms. -/
theorem c9_mean_time_to_clear (m : RunMetrics) :
    (mean_time_to_clear_ms m = none ↔ m.clear_durations_count = 0) ∧
    (m.clear_durations_count ≠ 0 →
      mean_time_to_clear_ms m =
        some ((m.clear_durations_ms_total : ℚ) / (m.clear_durations_count : ℚ))) ∧
    mean_time_to_clear_ms (consumeAll (initCollector 10) c9ExampleLog).m =
      some 30 := by
  refine ⟨?_, ?_, ?_⟩
  · by_cases hc : m.clear_durations_count = 0 <;> simp [mean_time_to_clear_ms, hc]
  · intro hc
    simp [mean_time_to_clear_ms, hc]
  · have h1 : (consumeAll (initCollector 10) c9ExampleLog).m.clear_durations_ms_total
        = 60 := by decide
    have h2 : (consumeAll (initCollector 10) c9ExampleLog).m.clear_durations_count
        = 2 := by decide
    rw [mean_time_to_clear_ms, h1, h2]
    norm_num

/-- Witness for C9 at a concrete metrics record with two samples summing 60 ms. -/
theorem c9_mean_time_to_clear_witness :
    mean_time_to_clear_ms { clear_durations_ms_total := 60, clear_durations_count := 2 } =
      some (((60 : Int) : ℚ) / ((2 : Nat) : ℚ)) := by
  exact (c9_mean_time_to_clear
    { clear_durations_ms_total := 60, clear_durations_count := 2 }).2.1 (by decide)

/-- C10 counterexample. As stated, the claim quantifies over every fault list
*containing* a dropout; but with `[dropout, sensor_spike 2000]` the spike
overwrites the dropout in the resolution loop, the reading is present, and the
test-file tick from `PENDING_CLEAR` returns normally instead of aborting. -/
theorem c10_contains_dropout_not_sufficient :
    (tickT cfg0 pcStateT 30 [⟨3, "dropout", 1⟩, ⟨3, "sensor_spike", 2000⟩]).isSome
      = true := by
  decide

/-- C10 (amended). Whenever the current state is `PENDING_CLEAR` and the fault
list resolves to an absent reading (a dropout not overwritten by a later
spike), the test-file implementation aborts on its transition assertion
(`ALARMED` is not a legal successor of `PENDING_CLEAR` in its table) while the
`src/src/app/app.py` implementation returns normally: the two near-duplicate
implementations are not behaviorally equivalent. -/
theorem c10_duplicate_implementations_diverge (cfg : AppConfig) (sT : AppStateT)
    (s : AppState) (now : Int) (fs : List Fault)
    (hsT : sT.state = .PENDING_CLEAR) (hs : s.state = .PENDING_CLEAR)
    (hr : resolveSensor fs = none) :
    tickT cfg sT now fs = none ∧ (tick cfg s now fs).isSome := by
  constructor
  · obtain ⟨tc, st, aa, rs, cs⟩ := sT
    have hst : st = .PENDING_CLEAR := hsT
    subst hst
    simp [tickT, hr, transitionT, legalTransitionsT]
  · obtain ⟨tc, st, rs, cs⟩ := s
    have hst : st = .PENDING_CLEAR := hs
    subst hst
    simp [tick, hr, transition, legalTransitions]

/-- Witness for the amended C10 theorem at concrete pending-clear states and a
single dropout fault. -/
theorem c10_duplicate_implementations_diverge_witness :
    tickT cfg0 pcStateT 30 [⟨3, "dropout", 1⟩] = none ∧
    (tick cfg0 pcState 30 [⟨3, "dropout", 1⟩]).isSome := by
  exact c10_duplicate_implementations_diverge cfg0 pcStateT pcState 30
    [⟨3, "dropout", 1⟩] rfl rfl (by decide)

end RTMon
